import Mathlib

/-
Verification development for the typed Notion client library
(`ultimate_notion`): a shallow embedding in Lean 4 of the property-value
marshaling layer (`obj_api/props.py`), the user-facing rich-text objects
(`objects.py`), the database facade (`database.py`) and the endpoint
wrappers (`endpoints.py`), together with theorems settling the stated
behavioural properties.

Conventions of the embedding:
* Python exceptions are modelled with `Except UNError`: a function that can
  raise returns `Except UNError α`, and `.error e` means the Python code
  raises exception `e` at that point.
* Python `None`-able fields are `Option`s.
* Python numbers are modelled as `ℚ` (no claim in scope depends on
  floating-point rounding; the numbers are only carried and compared).
* Where a claim depends on code of the repository that is not in the
  provided sources (the `ultimate_notion.schema`, `utils` and text-helper
  modules), the corresponding definition is marked `Modelled from the
  spec:` and follows the specification's words.
-/

set_option autoImplicit false

namespace UltimateNotion

/-- Modelled from the spec: the color enumeration attached to select/status
options (`obj_api/text.py` is not among the provided sources); only
distinguishability of colors matters for the claims. -/
inductive Color where
  | default_
  | gray
  | red
  | green
  | blue
  | yellow
  deriving DecidableEq, Repr

/-- The Python exceptions raised by the library code in scope: `ValueError`
and `TypeError` from the value classes, `AttributeError` from attribute
access on `None`, `SchemaError` (carrying its message) and
`ReadOnlyColumnError` (carrying the offending column name) from
`database.py`.  `schemaErrorDiff` is the `SchemaError` built by the schema
setter; it carries the three key lists that the source interpolates into
its message under the headings "Columns added/removed/changed". -/
inductive UNError where
  | valueError (msg : String)
  | typeError (msg : String)
  | attributeError (msg : String)
  | schemaErrorMsg (msg : String)
  | schemaErrorDiff (added removed changed : List String)
  | readOnlyColumnError (colName : String)
  deriving DecidableEq, Repr

/-- Short name for "this `Except` is an exception". -/
def isErr {α : Type} : Except UNError α → Bool
  | .error _ => true
  | .ok _ => false

/-- The closed set of property-type discriminator tags
(`PropertyValue` subclasses of `obj_api/props.py`). -/
inductive PropertyType where
  | title
  | richTextTy
  | number
  | checkbox
  | date
  | status
  | select
  | multiSelect
  | people
  | url
  | email
  | phoneNumber
  | files
  | formula
  | relation
  | rollup
  | createdTime
  | createdBy
  | lastEditedTime
  | lastEditedBy
  deriving DecidableEq, Repr

/-- Modelled from the spec: the `readonly` flag of the property classes in
the missing `ultimate_notion.schema` module; the spec lists the read-only
variants as formula, rollup and created/edited metadata. -/
def PropertyType.readonly : PropertyType → Bool
  | .formula | .rollup | .createdTime | .createdBy | .lastEditedTime | .lastEditedBy => true
  | _ => false

/-- Modelled from the spec: a rich-text span (`obj_api/types.py` is not
among the provided sources); each span carries its rendered plain text in
the `plain_text` field, which is all the claims consume. -/
structure RichTextObject where
  plainTextField : String
  deriving DecidableEq, Repr

/-- Modelled from the spec: `rich_text(*text)` of the missing
`obj_api/text.py`, building one text span per given string. -/
def richTextFn (texts : List String) : List RichTextObject :=
  texts.map (fun t => ⟨t⟩)

/-- Modelled from the spec: `plain_text(*objs)` of the missing
`obj_api/text.py`, concatenating the `plain_text` of every span. -/
def plainTextFn (objs : List RichTextObject) : String :=
  String.join (objs.map (fun o => o.plainTextField))

/-- `Title` property value (`props.py`): a list of rich-text spans. -/
structure Title where
  title : List RichTextObject
  deriving DecidableEq, Repr

/-- `Title.__compose__(*text)`: build the property from strings. -/
def Title.compose (texts : List String) : Title :=
  ⟨richTextFn texts⟩

/-- `Title.Value`: the plain text of the spans. -/
def Title.Value (self : Title) : String :=
  plainTextFn self.title

/-- `RichText` property value (`props.py`), named `RichTextProp` here to
keep it apart from the user-facing `RichText` list of `objects.py`. -/
structure RichTextProp where
  richTextField : List RichTextObject
  deriving DecidableEq, Repr

/-- `RichText.__compose__(*text)` of `props.py`. -/
def RichTextProp.compose (texts : List String) : RichTextProp :=
  ⟨richTextFn texts⟩

/-- `RichText.Value` of `props.py`: the plain text of the spans. -/
def RichTextProp.Value (self : RichTextProp) : String :=
  plainTextFn self.richTextField

/-- `Number` property value: `number: float | int | None`. -/
structure Number where
  number : Option ℚ
  deriving DecidableEq, Repr

/-- `NativeTypeMixin.__compose__` instantiated at `Number`:
`cls(**{cls.type: value})`. -/
def Number.compose (value : Option ℚ) : Number :=
  ⟨value⟩

/-- `Number.Value`: the underlying native number. -/
def Number.Value (self : Number) : Option ℚ :=
  self.number

/-- `Checkbox` property value: `checkbox: bool | None`. -/
structure Checkbox where
  checkbox : Option Bool
  deriving DecidableEq, Repr

/-- `NativeTypeMixin.__compose__` instantiated at `Checkbox`. -/
def Checkbox.compose (value : Option Bool) : Checkbox :=
  ⟨value⟩

/-- `NativeTypeMixin.Value` instantiated at `Checkbox`: `getattr(self, "checkbox")`. -/
def Checkbox.Value (self : Checkbox) : Option Bool :=
  self.checkbox

/-- `URL` property value: `url: str | None`. -/
structure URLProp where
  url : Option String
  deriving DecidableEq, Repr

/-- `NativeTypeMixin.__compose__` instantiated at `URL`. -/
def URLProp.compose (value : Option String) : URLProp :=
  ⟨value⟩

/-- `NativeTypeMixin.Value` instantiated at `URL`. -/
def URLProp.Value (self : URLProp) : Option String :=
  self.url

/-- `Email` property value: `email: str | None`. -/
structure Email where
  email : Option String
  deriving DecidableEq, Repr

/-- `NativeTypeMixin.__compose__` instantiated at `Email`. -/
def Email.compose (value : Option String) : Email :=
  ⟨value⟩

/-- `NativeTypeMixin.Value` instantiated at `Email`. -/
def Email.Value (self : Email) : Option String :=
  self.email

/-- `PhoneNumber` property value: `phone_number: str | None`. -/
structure PhoneNumber where
  phoneNumberField : Option String
  deriving DecidableEq, Repr

/-- `NativeTypeMixin.__compose__` instantiated at `PhoneNumber`. -/
def PhoneNumber.compose (value : Option String) : PhoneNumber :=
  ⟨value⟩

/-- `NativeTypeMixin.Value` instantiated at `PhoneNumber`. -/
def PhoneNumber.Value (self : PhoneNumber) : Option String :=
  self.phoneNumberField

/-- `SelectValue` of `props.py`: the payload of select and multi-select
options (`name`, optional `id`, optional `color`). -/
structure SelectValue where
  name : String
  id : Option String := none
  color : Option Color := none
  deriving DecidableEq, Repr

/-- `SelectValue.__compose__(value, color=None)`. -/
def SelectValue.compose (value : String) (color : Option Color) : SelectValue :=
  { name := value, color := color }

/-- `SelectOne` property value: `select: SelectValue | None`. -/
structure SelectOne where
  select : Option SelectValue
  deriving DecidableEq, Repr

/-- `SelectOne.__compose__(value, color=None)`:
`cls(select=SelectValue[value, color])`. -/
def SelectOne.compose (value : String) (color : Option Color) : SelectOne :=
  ⟨some (SelectValue.compose value color)⟩

/-- `SelectOne.Value`: `None` when no option is set, else `str(self.select)`,
which is the option's name. -/
def SelectOne.Value (self : SelectOne) : Option String :=
  self.select.map (fun sv => sv.name)

/-- `self.select.name` as evaluated by Python: raises `AttributeError` when
`select` is `None`. -/
def SelectOne.selName (self : SelectOne) : Except UNError String :=
  match self.select with
  | none => .error (.attributeError "'NoneType' object has no attribute 'name'")
  | some sv => .ok sv.name

/-- The possible right-hand operands of `SelectOne.__eq__` in the scenarios
under study: `None`, a plain string, or another `SelectOne`. -/
inductive SelOperand where
  | noneOp
  | strOp (s : String)
  | selOp (o : SelectOne)

/-- `SelectOne.__eq__` applied to a plain-string operand: the source line
`return other == self.select.name` comparing two strings. -/
def SelectOne.eqStr (self : SelectOne) (other : String) : Except UNError Bool := do
  let n ← self.selName
  pure (other == n)

/-- `SelectOne.__eq__`: on `None`, report whether no option is set; on a
string, compare with the option name; on another `SelectOne` `o`, the line
`return other == self.select.name` dispatches to `o.__eq__` with the string
`self.select.name`, hence `o.eqStr`. -/
def SelectOne.eqPy (self : SelectOne) : SelOperand → Except UNError Bool
  | .noneOp => .ok self.select.isNone
  | .strOp s => self.eqStr s
  | .selOp o => do
    let n ← self.selName
    o.eqStr n

/-- The nested data of a `Status` option (`Status._NestedData`). -/
structure StatusData where
  name : String
  id : Option String := none
  color : Option Color := none
  deriving DecidableEq, Repr

/-- `Status` property value: `status: _NestedData | None`. -/
structure Status where
  status : Option StatusData
  deriving DecidableEq, Repr

/-- `Status.__compose__(name, color=None)`: raises `ValueError` when `name`
is `None`, else wraps the name and color. -/
def Status.compose (name : Option String) (color : Option Color) : Except UNError Status :=
  match name with
  | none => .error (.valueError "'name' cannot be None")
  | some n => .ok ⟨some { name := n, color := color }⟩

/-- `self.status.name` as evaluated by Python: raises `AttributeError` when
`status` is `None`. -/
def Status.statusName (self : Status) : Except UNError String :=
  match self.status with
  | none => .error (.attributeError "'NoneType' object has no attribute 'name'")
  | some d => .ok d.name

/-- `Status.Value`: `self.status.name`. -/
def Status.Value (self : Status) : Except UNError String :=
  self.statusName

/-- The possible right-hand operands of `Status.__eq__` in the scenarios
under study. -/
inductive StatusOperand where
  | noneOp
  | strOp (s : String)
  | statOp (o : Status)

/-- `Status.__eq__`: `None` compares with option absence; another `Status`
compares by option name; anything else compares the name with the operand
(here: a string). -/
def Status.eqPy (self : Status) : StatusOperand → Except UNError Bool
  | .noneOp => .ok self.status.isNone
  | .statOp o => do
    let a ← self.statusName
    let b ← o.statusName
    pure (a == b)
  | .strOp s => do
    let a ← self.statusName
    pure (a == s)

/-- `MultiSelect` property value: a list of `SelectValue`s. -/
structure MultiSelect where
  multiSelect : List SelectValue
  deriving DecidableEq, Repr

/-- `MultiSelect.__contains__(name)`: membership by option *name* only. -/
def MultiSelect.containsName (self : MultiSelect) (name : String) : Bool :=
  self.multiSelect.any (fun opt => opt.name == name)

/-- One step of `MultiSelect.append(*values)`: `None` raises `ValueError`;
a value already present (by name) is skipped silently; otherwise a fresh
`SelectValue` is appended. -/
def MultiSelect.appendOne (self : MultiSelect) (value : Option String) :
    Except UNError MultiSelect :=
  match value with
  | none => .error (.valueError "'None' is an invalid value")
  | some v =>
    if self.containsName v then .ok self
    else .ok ⟨self.multiSelect ++ [{ name := v }]⟩

/-- `MultiSelect.remove(*values)` with a single value: keep only the options
whose name is not the given one. -/
def MultiSelect.removeOne (self : MultiSelect) (value : String) : MultiSelect :=
  ⟨self.multiSelect.filter (fun opt => ¬ (opt.name == value))⟩

/-- `MultiSelect.__iadd__(other)`: raise on duplicates, else `append`. -/
def MultiSelect.iadd (self : MultiSelect) (other : String) : Except UNError MultiSelect :=
  if self.containsName other then
    .error (.valueError ("Duplicate item: " ++ other))
  else
    self.appendOne (some other)

/-- `MultiSelect.__isub__(other)`: raise when absent, else `remove`. -/
def MultiSelect.isub (self : MultiSelect) (other : String) : Except UNError MultiSelect :=
  if ¬ self.containsName other then
    .error (.valueError ("No such item: " ++ other))
  else
    .ok (self.removeOne other)

/-- `MultiSelect.__compose__(*values)`: one `SelectValue` per non-`None`
value. -/
def MultiSelect.compose (values : List (Option String)) : MultiSelect :=
  ⟨(values.filterMap id).map (fun v => { name := v })⟩

/-- Python's `list.remove(x)`: drop the first element equal to `x`, raising
`ValueError` when no element is equal to `x`. -/
def pyListRemove {α : Type} [DecidableEq α] (l : List α) (x : α) : Except UNError (List α) :=
  match l with
  | [] => .error (.valueError "list.remove(x): x not in list")
  | a :: rest =>
    if a = x then .ok rest
    else (pyListRemove rest x).map (fun r => a :: r)

/-- Modelled from the spec: a file reference (`FileObject` of the missing
`obj_api/types.py`), a web resource with a name and a url; equality is
structural (field-wise), as for the library's data objects. -/
structure FileObject where
  name : String
  url : String
  deriving DecidableEq, Repr

/-- `Files` property value: a list of file references. -/
structure Files where
  files : List FileObject
  deriving DecidableEq, Repr

/-- The possible operands of `Files.__contains__`: a `FileObject` or a
plain name string. -/
inductive FileOperand where
  | fileOp (f : FileObject)
  | strOp (s : String)

/-- `Files.__contains__(other)`: some reference equals `other`, or has
`other` as its name.  For a `FileObject` operand only the first disjunct
can hold (`ref.name == other` compares a string with an object); for a
string operand only the second can. -/
def Files.containsOp (self : Files) : FileOperand → Bool
  | .fileOp f => self.files.any (fun ref => ref == f)
  | .strOp s => self.files.any (fun ref => ref.name == s)

/-- `Files.append(obj)`: plain list append, no duplicate check. -/
def Files.appendObj (self : Files) (obj : FileObject) : Files :=
  ⟨self.files ++ [obj]⟩

/-- `Files.remove(obj)`: Python `list.remove`. -/
def Files.removeObj (self : Files) (obj : FileObject) : Except UNError Files :=
  (pyListRemove self.files obj).map (fun l => ⟨l⟩)

/-- `Files.__iadd__(obj)`: raise when the object is already contained, else
append. -/
def Files.iadd (self : Files) (obj : FileObject) : Except UNError Files :=
  if self.containsOp (.fileOp obj) then
    .error (.valueError ("Item exists: " ++ obj.name))
  else
    .ok (self.appendObj obj)

/-- `Files.__isub__(obj)`: raise when the object is not contained, else
`list.remove` it. -/
def Files.isub (self : Files) (obj : FileObject) : Except UNError Files :=
  if ¬ self.containsOp (.fileOp obj) then
    .error (.valueError ("No such item: " ++ obj.name))
  else
    self.removeObj obj

/-- Modelled from the spec: `ObjectReference` of the missing
`obj_api/types.py`, an opaque id wrapper with structural equality;
`ObjectReference[page]` canonicalizes a page into such a reference. -/
structure ObjectReference where
  id : String
  deriving DecidableEq, Repr

/-- `Relation` property value: a list of page references. -/
structure Relation where
  relation : List ObjectReference
  hasMore : Bool := false
  deriving DecidableEq, Repr

/-- `Relation.__compose__(*pages)`. -/
def Relation.compose (pages : List ObjectReference) : Relation :=
  ⟨pages, false⟩

/-- `Relation.__contains__(page)`: `ObjectReference[page] in self.relation`. -/
def Relation.containsRef (self : Relation) (ref : ObjectReference) : Bool :=
  self.relation.contains ref

/-- `Relation.__iadd__(page)`: raise on a duplicate reference, else append. -/
def Relation.iadd (self : Relation) (ref : ObjectReference) : Except UNError Relation :=
  if ref ∈ self.relation then
    .error (.valueError ("Duplicate item: " ++ ref.id))
  else
    .ok { self with relation := self.relation ++ [ref] }

/-- `Relation.__isub__(page)`, exactly as written in the source: when the
reference IS present it raises `ValueError("No such item: ...")`; only when
it is absent does it reach `self.relation.remove(ref)`, which then raises
Python's `list.remove` `ValueError` because the element is missing. -/
def Relation.isub (self : Relation) (ref : ObjectReference) : Except UNError Relation :=
  if ref ∈ self.relation then
    .error (.valueError ("No such item: " ++ ref.id))
  else
    (pyListRemove self.relation ref).map (fun l => { self with relation := l })

/-- The right-hand operands of the `Number` arithmetic operators: another
`Number` or a plain Python number. -/
inductive NumOperand where
  | numOp (n : Number)
  | scalarOp (q : ℚ)

/-- Python addition of possibly-`None` numbers: `a + b` raises `TypeError`
when either side is `None`. -/
def pyAdd (a b : Option ℚ) : Except UNError ℚ :=
  match a, b with
  | some x, some y => .ok (x + y)
  | _, _ => .error (.typeError "unsupported operand for +: 'NoneType'")

/-- Python subtraction of possibly-`None` numbers. -/
def pySub (a b : Option ℚ) : Except UNError ℚ :=
  match a, b with
  | some x, some y => .ok (x - y)
  | _, _ => .error (.typeError "unsupported operand for -: 'NoneType'")

/-- Python multiplication of possibly-`None` numbers. -/
def pyMul (a b : Option ℚ) : Except UNError ℚ :=
  match a, b with
  | some x, some y => .ok (x * y)
  | _, _ => .error (.typeError "unsupported operand for *: 'NoneType'")

/-- `Number.__float__`: raises `ValueError` on a `None` value. -/
def Number.floatPy (self : Number) : Except UNError ℚ :=
  match self.number with
  | none => .error (.valueError "Cannot convert 'None' to float")
  | some n => .ok n

/-- `Number.__int__`: raises `ValueError` on a `None` value, else truncates
toward zero as Python's `int()` does. -/
def Number.intPy (self : Number) : Except UNError ℤ :=
  match self.number with
  | none => .error (.valueError "Cannot convert 'None' to int")
  | some n => .ok (n.num.tdiv (n.den : ℤ))

/-- `Number.__add__(other)`: `Number[other + self.Value]`.  With a scalar
operand this is Python number addition (a `TypeError` when `self.Value` is
`None`); with a `Number` operand the expression `other + self.Value`
re-enters `Number.__add__` on `other` and becomes
`Number[self.Value + other.Value]`. -/
def Number.addPy (self : Number) : NumOperand → Except UNError Number
  | .scalarOp q => (pyAdd (some q) self.number).map (fun r => ⟨some r⟩)
  | .numOp o => (pyAdd self.number o.number).map (fun r => ⟨some r⟩)

/-- `Number.__sub__(other)`: `Number[self.Value - float(other)]`; `float` of
a `Number` operand goes through `__float__` (raising on `None`), and the
subtraction raises `TypeError` when `self.Value` is `None`. -/
def Number.subPy (self : Number) : NumOperand → Except UNError Number
  | .scalarOp q => (pySub self.number (some q)).map (fun r => ⟨some r⟩)
  | .numOp o => do
    let f ← o.floatPy
    (pySub self.number (some f)).map (fun r => ⟨some r⟩)

/-- `Number.__mul__(other)`: `Number[other * self.Value]`, symmetric to
addition. -/
def Number.mulPy (self : Number) : NumOperand → Except UNError Number
  | .scalarOp q => (pyMul (some q) self.number).map (fun r => ⟨some r⟩)
  | .numOp o => (pyMul self.number o.number).map (fun r => ⟨some r⟩)

/-- `Number` defines no `__truediv__` and none of its base classes supplies
one, so Python rejects `x / y` with a `TypeError` before any value is
produced. -/
def Number.divPy (_self : Number) (_other : NumOperand) : Except UNError Number :=
  .error (.typeError "unsupported operand type(s) for /: 'Number'")

/-- `Number.__iadd__(other)`: `self.number += other.Value` or
`self.number += other`, raising `TypeError` when either side is `None`. -/
def Number.iaddPy (self : Number) : NumOperand → Except UNError Number
  | .scalarOp q => (pyAdd self.number (some q)).map (fun r => ⟨some r⟩)
  | .numOp o => (pyAdd self.number o.number).map (fun r => ⟨some r⟩)

/-- A schema column (`Column` of the missing `ultimate_notion.schema`
module, as used by `database.py`): a server-side column name paired with a
property type. -/
structure Column where
  name : String
  type : PropertyType
  deriving DecidableEq, Repr

/-- One attribute of a user-declared or reflected schema: the Python
attribute name together with its `Column`. -/
structure SchemaCol where
  attrName : String
  col : Column
  deriving DecidableEq, Repr

/-- A schema is the ordered list of its attribute/column records
(`PageSchema` of the missing schema module, described in spec section 9 as
an ordered list of records). -/
abbrev PageSchema := List SchemaCol

/-- `PageSchema.get_cols()`: the columns of the schema. -/
def PageSchema.getCols (s : PageSchema) : List Column :=
  s.map (fun sc => sc.col)

/-- Modelled from the spec: `PageSchema.to_dict()`, the column-key-to-type
mapping of a schema (spec section 4.2), as an association list keyed by the
server-side column name. -/
def PageSchema.toDict (s : PageSchema) : List (String × PropertyType) :=
  s.map (fun sc => (sc.col.name, sc.col.type))

/-- The keys of a column dictionary. -/
def dictKeys (d : List (String × PropertyType)) : List String :=
  d.map Prod.fst

/-- Dictionary lookup by column key. -/
def lookupT (d : List (String × PropertyType)) (k : String) : Option PropertyType :=
  (d.find? (fun p => p.1 == k)).map Prod.snd

/-- Equality of two column dictionaries as unordered key-to-type maps. -/
def dictEquiv (d1 d2 : List (String × PropertyType)) : Bool :=
  (dictKeys d1 ++ dictKeys d2).all (fun k => lookupT d1 k == lookupT d2 k)

/-- Modelled from the spec: `is_consistent_with` of the missing schema
module — two schemas are consistent iff they have the same column keys and
types, regardless of attribute naming (spec sections 3 and 4.2). -/
def PageSchema.isConsistentWith (self other : PageSchema) : Bool :=
  dictEquiv self.toDict other.toDict

/-- Modelled from the spec: `dict_diff_str` of the missing
`ultimate_notion.utils` — the diff of two column dictionaries, enumerating
added, removed and changed column keys (spec section 4.2). -/
def dictDiffStr (old new : List (String × PropertyType)) :
    List String × List String × List String :=
  ((dictKeys new).filter (fun k => (lookupT old k).isNone),
   (dictKeys old).filter (fun k => (lookupT new k).isNone),
   (dictKeys old).filter (fun k =>
     match lookupT old k, lookupT new k with
     | some a, some b => a != b
     | _, _ => false))

/-- The message the schema setter interpolates from the diff, with the
three lists rendered under their labelled headings as in the source
f-string. -/
def schemaSetterMsg (added removed changed : List String) : String :=
  ("Provided schema is not consistent with the current schema of the database:\n" ++
   ("Columns added: [" ++ String.intercalate ", " added ++ "]\n")) ++
  ("Columns removed: [" ++ String.intercalate ", " removed ++ "]\n") ++
  ("Columns changed: [" ++ String.intercalate ", " changed ++ "]\n")

/-- The state of a `Database` facade object that the claims touch: the id
of the wrapped server object, its server-declared column map
(`obj_ref.properties`) and the lazily cached schema (`_schema`). -/
structure DatabaseState where
  id : String
  serverCols : List (String × PropertyType)
  cachedSchema : Option PageSchema := none
  deriving Repr

/-- Modelled from the spec: `decapitalize` of the missing
`ultimate_notion.utils` — lower-case the first character. -/
def decapitalize (s : String) : String :=
  match s.data with
  | [] => ""
  | c :: rest => String.mk (c.toLower :: rest)

/-- Modelled from the spec: the attribute-name derivation of
`Database._reflect_schema` is `decapitalize(make_safe_python_name(k))`;
`make_safe_python_name` (missing module, and spec section 9 leaves its
sanitization policy open) is the identity on the already-safe column names
the claims use. -/
def deriveAttrName (k : String) : String := decapitalize k

/-- `Database._reflect_schema`: one schema attribute per server column. -/
def reflectSchema (serverCols : List (String × PropertyType)) : PageSchema :=
  serverCols.map (fun p => ⟨deriveAttrName p.1, ⟨p.1, p.2⟩⟩)

/-- The `Database.schema` getter: the cached schema, reflecting it first
when none is cached. -/
def DatabaseState.schema (db : DatabaseState) : PageSchema :=
  match db.cachedSchema with
  | some s => s
  | none => reflectSchema db.serverCols

/-- The `Database.schema` setter: when the new schema is consistent with
the current one it is bound and cached; otherwise a `SchemaError` carrying
the diff is raised and the state is returned unchanged (the assignment is
never reached). -/
def DatabaseState.setSchema (db : DatabaseState) (s : PageSchema) :
    DatabaseState × Except UNError Unit :=
  if db.schema.isConsistentWith s then
    ({ db with cachedSchema := some s }, .ok ())
  else
    let d := dictDiffStr db.schema.toDict s.toDict
    (db, .error (.schemaErrorDiff d.1 d.2.1 d.2.2))

/-- A native Python value passed as a `create_page` keyword argument. -/
inductive Native where
  | strV (s : String)
  | numV (q : ℚ)
  | boolV (b : Bool)
  | noneV
  deriving DecidableEq, Repr

/-- The serialized form of one property value in a write payload
(`prop_value.obj_ref` / `prop.dict()`): the discriminator tag with its
native payload. -/
structure PropPayload where
  type : PropertyType
  val : Native
  deriving DecidableEq, Repr

/-- A `create_page` keyword value: either an already-built `PropertyValue`
or a native value to be wrapped by the column's value class
(`prop_value_cls(value)`). -/
inductive KwargVal where
  | propVal (p : PropPayload)
  | nativeVal (v : Native)
  deriving Repr

/-- Setting `d[k] = v` on a Python dict: replace the value of an existing
key in place, else append the new entry. -/
def dictSet (d : List (String × PropPayload)) (k : String) (v : PropPayload) :
    List (String × PropPayload) :=
  if (d.find? (fun p => p.1 == k)).isSome then
    d.map (fun p => if p.1 == k then (k, v) else p)
  else
    d ++ [(k, v)]

/-- The request body assembled by `PagesEndpoint.create` and handed to the
raw transport (`self.raw_api.create(**request)`): in this embedding,
`create_page` and `pagesCreate` return `.ok req` exactly when the code
reaches the single transport call, with `req` the request it sends, and
`.error e` exactly when the code raises `e` beforehand — so an `.error`
result means no network request is issued. -/
structure CreatePageRequest where
  parentId : String
  properties : List (String × PropPayload)
  children : Option (List String) := none
  deriving DecidableEq, Repr

/-- `PagesEndpoint.create(parent, title=None, properties=None,
children=None)`: builds the request from the parent reference, the given
properties (with `properties["title"]` set when a title is passed) and the
optional children, then issues the one transport call. -/
def pagesCreate (parentId : String) (title : Option String)
    (properties : List (String × PropPayload)) (children : Option (List String)) :
    Except UNError CreatePageRequest :=
  let props :=
    match title with
    | none => properties
    | some t => dictSet properties "title" ⟨.title, .strV t⟩
  .ok { parentId := parentId, properties := props, children := children }

/-- Association-list lookup of a column by attribute name
(`schema_kwargs[kwarg]`). -/
def lookupCol (schemaKwargs : List (String × Column)) (k : String) : Option Column :=
  (schemaKwargs.find? (fun p => p.1 == k)).map Prod.snd

/-- The property-building loop of `Database.create_page`: for each keyword
in order, look up its column, raise `ReadOnlyColumnError` on a read-only
column, wrap a native value with the column's value class, and store the
payload in `schema_dct` under the server-side column name. -/
def buildProps (schemaKwargs : List (String × Column)) :
    List (String × KwargVal) → Except UNError (List (String × PropPayload))
  | [] => .ok []
  | (k, v) :: rest =>
    match lookupCol schemaKwargs k with
    | none => .error (.schemaErrorMsg ("KeyError: " ++ k))
    | some col =>
      if col.type.readonly then
        .error (.readOnlyColumnError col.name)
      else
        let payload : PropPayload :=
          match v with
          | .propVal p => p
          | .nativeVal nv => ⟨col.type, nv⟩
        (buildProps schemaKwargs rest).map (fun ps => (col.name, payload) :: ps)

/-- `Database.create_page(**kwargs)`: build `schema_kwargs` from the
schema's columns, raise `SchemaError` when some keyword is not a schema
attribute, then build the property payload (raising `ReadOnlyColumnError`
on read-only columns) and call `pages.create` with it.  As for
`pagesCreate`, `.error` means the exception is raised before the transport
call, so no page is created. -/
def DatabaseState.createPage (db : DatabaseState) (kwargs : List (String × KwargVal)) :
    Except UNError CreatePageRequest :=
  let schemaKwargs := db.schema.map (fun sc => (sc.attrName, sc.col))
  let unknown := (kwargs.map Prod.fst).filter (fun k => (lookupCol schemaKwargs k).isNone)
  if unknown.isEmpty then do
    let props ← buildProps schemaKwargs kwargs
    pagesCreate db.id none props none
  else
    .error (.schemaErrorMsg
      ("kwargs " ++ String.intercalate ", " unknown ++ " not defined in schema"))

/-- A span of the user-facing `RichText` of `objects.py`: a wrapped `Text`,
`Equation` or `Mention`, each carrying the rendered plain text of its
underlying `RichTextObject`. -/
inductive Span where
  | textSp (pt : String)
  | equationSp (pt : String)
  | mentionSp (pt : String)
  deriving DecidableEq, Repr

/-- The `plain_text` field of a span's underlying object. -/
def Span.plainTextOf : Span → String
  | .textSp s => s
  | .equationSp s => s
  | .mentionSp s => s

/-- The user-facing `RichText` of `objects.py`: an ordered list of spans. -/
structure RichTextU where
  spans : List Span
  deriving DecidableEq, Repr

/-- `RichText.to_plain_text()`: `None` for an empty list, else the
concatenation of the spans' plain text. -/
def RichTextU.toPlainText (self : RichTextU) : Option String :=
  if self.spans.isEmpty then none
  else some (String.join (self.spans.map Span.plainTextOf))

/-- `RichText.__str__()`: the plain text, with `None` rendered as the empty
string. -/
def RichTextU.strPy (self : RichTextU) : String :=
  (self.toPlainText).getD ""

/-- The operands of `RichText.__eq__` that the code handles: a plain string
or another `RichText` (anything else is `NotImplemented`). -/
inductive RTOperand where
  | strOp (s : String)
  | rtOp (o : RichTextU)

/-- `RichText.__eq__`: `str(self) == other` for a string operand,
`str(self) == str(other)` for a `RichText` operand. -/
def RichTextU.eqPy (self : RichTextU) : RTOperand → Bool
  | .strOp s => self.strPy == s
  | .rtOp o => self.strPy == o.strPy

/-- `RichText.__hash__`: `hash(str(self))`, a function of the rendered
string only. -/
def RichTextU.hashPy (self : RichTextU) : UInt64 :=
  self.strPy.hash

/-- The raw data of one block in a transport response, kept abstract. -/
structure RawBlockData where
  payload : String
  deriving DecidableEq, Repr

/-- A wrapped block object; its state is, abstractly, the raw payload it
was last refreshed with. -/
structure Block where
  payload : String
  deriving DecidableEq, Repr

/-- `Block.refresh(**result)`: replace the wrapped state with the given raw
data. -/
def Block.refresh (_self : Block) (result : RawBlockData) : Block :=
  ⟨result.payload⟩

/-- What `BlocksEndpoint.ChildrenEndpoint.append` produces: the returned
parent, the local block objects after the (possibly skipped) refresh, and
the warnings logged along the way. -/
structure AppendOutcome where
  parent : String
  blocks : List Block
  warnings : List String
  deriving DecidableEq, Repr

/-- `BlocksEndpoint.ChildrenEndpoint.append(parent, *blocks)` after the
transport call returned `response` (`none` models a response without a
`results` field).  When the count of returned results matches the count of
sent blocks, each block is refreshed from its result; otherwise a warning
is logged and the blocks are left untouched; the parent is returned in
every case and, as the source has no raise path here, every branch is
`.ok`. -/
def childrenAppend (parent : String) (blocks : List Block)
    (response : Option (List RawBlockData)) : Except UNError AppendOutcome :=
  match response with
  | none => .ok ⟨parent, blocks, ["Unable to refresh results; not provided"]⟩
  | some results =>
    if blocks.length = results.length then
      .ok ⟨parent, (blocks.zip results).map (fun p => p.1.refresh p.2), []⟩
    else
      .ok ⟨parent, blocks, ["Unable to refresh results; size mismatch"]⟩

/-- Claim C3: for every property-value variant with a native scalar
correspondence (Title, RichText, Number, Checkbox, URL, Email, PhoneNumber,
SelectOne, Status), composing the variant from a native value and reading
its `Value` accessor yields that value back (for `SelectOne`/`Status` the
accessor yields the option whose name is the given string, i.e. a
non-`None` value equal to it). -/
theorem compose_value_roundtrip (s t u p : String) (q : Option ℚ) (b : Option Bool)
    (uo eo po : Option String) (c co : Option Color) :
    (Title.compose [s]).Value = s ∧
    (RichTextProp.compose [t]).Value = t ∧
    (Number.compose q).Value = q ∧
    (Checkbox.compose b).Value = b ∧
    (URLProp.compose uo).Value = uo ∧
    (Email.compose eo).Value = eo ∧
    (PhoneNumber.compose po).Value = po ∧
    (SelectOne.compose u c).Value = some u ∧
    (Status.compose (some p) co) >>= Status.Value = .ok p :=
  ⟨rfl, rfl, rfl, rfl, rfl, rfl, rfl, rfl, rfl⟩

/-- Claim C5: for a database with columns Name (title), Cost (number) and
Description (rich text), `create_page(name="Widget", cost=9.99)` issues one
transport request whose properties map holds exactly the entries keyed
"Name" and "Cost" — "Description" is absent, not present with a null
value. -/
theorem create_page_widget_payload_exact :
    (DatabaseState.createPage
        ⟨"db1", [("Name", .title), ("Cost", .number), ("Description", .richTextTy)], none⟩
        [("name", .nativeVal (.strV "Widget")), ("cost", .nativeVal (.numV (999 / 100)))]) =
      .ok ⟨"db1",
           [("Name", ⟨.title, .strV "Widget"⟩), ("Cost", ⟨.number, .numV (999 / 100)⟩)],
           none⟩ ∧
    (DatabaseState.createPage
        ⟨"db1", [("Name", .title), ("Cost", .number), ("Description", .richTextTy)], none⟩
        [("name", .nativeVal (.strV "Widget")), ("cost", .nativeVal (.numV (999 / 100)))]).map
      (fun r => (r.properties.map Prod.fst, decide ("Description" ∈ r.properties.map Prod.fst))) =
      .ok (["Name", "Cost"], false) :=
  ⟨rfl, rfl⟩

/-- Claim C6: `Status` and `SelectOne` equality is decided by the option
name alone — for any two option payloads, whatever their ids and colors,
the comparison returns exactly whether the names coincide (so same name
with different colors and/or ids compares equal). -/
theorem status_select_equality_by_name_only (n1 n2 : String) (i1 i2 : Option String)
    (c1 c2 : Option Color) :
    (Status.mk (some ⟨n1, i1, c1⟩)).eqPy (.statOp (Status.mk (some ⟨n2, i2, c2⟩))) =
      .ok (n1 == n2) ∧
    (SelectOne.mk (some ⟨n1, i1, c1⟩)).eqPy (.selOp (SelectOne.mk (some ⟨n2, i2, c2⟩))) =
      .ok (n1 == n2) :=
  ⟨rfl, rfl⟩

/-- Claim C2 (refutation on the code): `Relation.__isub__` raises
`ValueError("No such item: ...")` precisely when the given reference IS
present — removing a present element does not remove it but raises — so the
claimed `x -= v; v in x == false` behaviour fails at this concrete input.
The inverted membership test contradicts the method's own docstring
("Remove the given page from this Relation in place") and error message. -/
theorem relation_isub_raises_on_present_element :
    (Relation.mk [⟨"p1"⟩] false).containsRef ⟨"p1"⟩ = true ∧
    (Relation.mk [⟨"p1"⟩] false).isub ⟨"p1"⟩ =
      .error (.valueError "No such item: p1") ∧
    (Relation.mk [] false).isub ⟨"p1"⟩ =
      .error (.valueError "list.remove(x): x not in list") :=
  ⟨rfl, rfl, rfl⟩

/-- Python's `list.remove` on an absent element raises `ValueError`. -/
theorem pyListRemove_not_mem {α : Type} [DecidableEq α] (l : List α) (x : α) (h : x ∉ l) :
    pyListRemove l x = .error (.valueError "list.remove(x): x not in list") := by
  induction l with
  | nil => rfl
  | cons a rest ih =>
    have hne : ¬ (a = x) := fun hc => h (hc ▸ List.mem_cons_self a rest)
    have hrest : x ∉ rest := fun hc => h (List.mem_cons_of_mem a hc)
    simp [pyListRemove, hne, ih hrest, Except.map]

/-- `Relation.__isub__` raises on every input: the then-branch raises
explicitly and the else-branch reaches `list.remove` on an element known to
be absent. -/
theorem relation_isub_always_raises (rel : Relation) (ref : ObjectReference) :
    isErr (rel.isub ref) = true := by
  unfold Relation.isub
  by_cases h : ref ∈ rel.relation
  · simp [h, isErr]
  · simp [h, pyListRemove_not_mem rel.relation ref h, isErr, Except.map]

/-- Claim C10: `MultiSelect.append` of an already-present value leaves the
property unchanged and raises nothing, in contrast with `+=` which raises a
duplicate `ValueError` on the same input; `append(None)` raises
`ValueError`. -/
theorem multiselect_append_idempotent_vs_iadd (x : MultiSelect) (v : String)
    (h : x.containsName v = true) :
    x.appendOne (some v) = .ok x ∧
    x.iadd v = .error (.valueError ("Duplicate item: " ++ v)) ∧
    x.appendOne none = .error (.valueError "'None' is an invalid value") := by
  refine ⟨?_, ?_, rfl⟩
  · simp [MultiSelect.appendOne, h]
  · simp [MultiSelect.iadd, h]

/-- Witness for the previous theorem at a one-option `MultiSelect`. -/
theorem multiselect_append_idempotent_vs_iadd_witness :
    (MultiSelect.mk [⟨"a", none, none⟩]).appendOne (some "a") =
      .ok (MultiSelect.mk [⟨"a", none, none⟩]) ∧
    (MultiSelect.mk [⟨"a", none, none⟩]).iadd "a" =
      .error (.valueError ("Duplicate item: " ++ "a")) ∧
    (MultiSelect.mk [⟨"a", none, none⟩]).appendOne none =
      .error (.valueError "'None' is an invalid value") :=
  multiselect_append_idempotent_vs_iadd ⟨[⟨"a", none, none⟩]⟩ "a" rfl

/-- Claim C9: user-facing `RichText` equality and hashing are functions of
the rendered plain text alone (the `str()` rendering used by `__eq__` and
`__hash__`): equal renderings give equal objects and equal hashes whatever
the span structure, and comparison with a plain string holds exactly when
the rendering equals that string. -/
theorem richtext_eq_hash_by_rendered_text (a b : RichTextU) (s : String)
    (h : a.strPy = b.strPy) :
    a.eqPy (.rtOp b) = true ∧ a.hashPy = b.hashPy ∧
    (a.eqPy (.strOp s) = true ↔ a.strPy = s) := by
  refine ⟨?_, ?_, ?_⟩
  · simp [RichTextU.eqPy, h]
  · simp [RichTextU.hashPy, h]
  · simp [RichTextU.eqPy]

/-- Witness for the previous theorem: one span "hi" against two spans
"h", "i" — distinct structure, same rendering. -/
theorem richtext_eq_hash_by_rendered_text_witness :
    (RichTextU.mk [.textSp "hi"]).eqPy (.rtOp (RichTextU.mk [.textSp "h", .mentionSp "i"])) = true ∧
    (RichTextU.mk [.textSp "hi"]).hashPy = (RichTextU.mk [.textSp "h", .mentionSp "i"]).hashPy ∧
    ((RichTextU.mk [.textSp "hi"]).eqPy (.strOp "hi") = true ↔
      (RichTextU.mk [.textSp "hi"]).strPy = "hi") :=
  richtext_eq_hash_by_rendered_text ⟨[.textSp "hi"]⟩ ⟨[.textSp "h", .mentionSp "i"]⟩ "hi" rfl

/-- Claim C8: when the transport response of a block-children append has no
`results` field or a results list of the wrong length, the operation logs a
warning, leaves the local block objects untouched, returns the parent, and
raises nothing (the outcome is `.ok` in every such case). -/
theorem children_append_size_mismatch_soft_failure (parent : String)
    (blocks : List Block) (rs : List RawBlockData)
    (h : rs.length ≠ blocks.length) :
    childrenAppend parent blocks (some rs) =
      .ok ⟨parent, blocks, ["Unable to refresh results; size mismatch"]⟩ ∧
    childrenAppend parent blocks none =
      .ok ⟨parent, blocks, ["Unable to refresh results; not provided"]⟩ := by
  have h2 : ¬ (blocks.length = rs.length) := fun hh => h hh.symm
  exact ⟨by simp [childrenAppend, h2], rfl⟩

/-- Witness for the previous theorem: one block sent, zero results back. -/
theorem children_append_size_mismatch_soft_failure_witness :
    childrenAppend "p" [⟨"b"⟩] (some []) =
      .ok ⟨"p", [⟨"b"⟩], ["Unable to refresh results; size mismatch"]⟩ ∧
    childrenAppend "p" [⟨"b"⟩] none =
      .ok ⟨"p", [⟨"b"⟩], ["Unable to refresh results; not provided"]⟩ :=
  children_append_size_mismatch_soft_failure "p" [⟨"b"⟩] [] (by decide)

/-- Claim C7: every arithmetic operation of a `Number` whose native value
is `None` — `+`, `-`, `*`, `+=`, `float()`, `int()` — raises an explicit
`TypeError`/`ValueError` instead of yielding NaN or zero, and division of
any `Number` by anything raises `TypeError` (no `__truediv__` exists).
By structure eta, `Number.mk none` is the one `Number` with a `None` native
value, so the statement covers them all. -/
theorem number_none_arith_raises (op : NumOperand) :
    isErr ((Number.mk none).addPy op) = true ∧
    isErr ((Number.mk none).subPy op) = true ∧
    isErr ((Number.mk none).mulPy op) = true ∧
    isErr ((Number.mk none).iaddPy op) = true ∧
    isErr (Number.mk none).floatPy = true ∧
    isErr (Number.mk none).intPy = true ∧
    (∀ (y : Number) (op2 : NumOperand), isErr (y.divPy op2) = true) := by
  refine ⟨?_, ?_, ?_, ?_, rfl, rfl, fun y op2 => rfl⟩
  all_goals
    cases op with
    | scalarOp q => rfl
    | numOp o =>
      obtain ⟨onum⟩ := o
      cases onum <;> rfl

/-- Claim C4: for a database whose reflected schema covers two distinct
columns `kA` and `kB`, assigning a user schema that lacks `kB` raises a
`SchemaError` whose diff enumerates `kB` — and `kB` alone — under "Columns
removed" (the rendered message places it right after that heading), and the
database state, its cached schema included, stays unchanged; assigning a
schema with the same column-key-to-type mapping and arbitrary different
attribute names succeeds and binds the new schema. -/
theorem schema_setter_diff_and_rebind (dbid kA kB a1 a2 a3 : String)
    (tA tB : PropertyType) (hne : kA ≠ kB) :
    (DatabaseState.setSchema ⟨dbid, [(kA, tA), (kB, tB)], none⟩ [⟨a1, ⟨kA, tA⟩⟩]).2 =
      .error (.schemaErrorDiff [] [kB] []) ∧
    (DatabaseState.setSchema ⟨dbid, [(kA, tA), (kB, tB)], none⟩ [⟨a1, ⟨kA, tA⟩⟩]).1 =
      ⟨dbid, [(kA, tA), (kB, tB)], none⟩ ∧
    (∃ pre post : String, schemaSetterMsg [] [kB] [] =
      pre ++ ("Columns removed: [" ++ kB ++ "]\n") ++ post) ∧
    (DatabaseState.setSchema ⟨dbid, [(kA, tA), (kB, tB)], none⟩
        [⟨a2, ⟨kA, tA⟩⟩, ⟨a3, ⟨kB, tB⟩⟩]).2 = .ok () ∧
    (DatabaseState.setSchema ⟨dbid, [(kA, tA), (kB, tB)], none⟩
        [⟨a2, ⟨kA, tA⟩⟩, ⟨a3, ⟨kB, tB⟩⟩]).1.cachedSchema =
      some [⟨a2, ⟨kA, tA⟩⟩, ⟨a3, ⟨kB, tB⟩⟩] := by
  have hAB : (kA == kB) = false := by simp [hne]
  refine ⟨?_, ?_,
    ⟨"Provided schema is not consistent with the current schema of the database:\n" ++
       ("Columns added: [" ++ String.intercalate ", " [] ++ "]\n"),
     "Columns changed: [" ++ String.intercalate ", " [] ++ "]\n", rfl⟩, ?_, ?_⟩ <;>
  simp [DatabaseState.setSchema, DatabaseState.schema, reflectSchema,
        PageSchema.isConsistentWith, dictEquiv, PageSchema.toDict, dictKeys, lookupT,
        dictDiffStr, hAB, hne]

/-- Witness for the previous theorem at columns A (title) and B (number). -/
theorem schema_setter_diff_and_rebind_witness :
    (DatabaseState.setSchema ⟨"db", [("A", .title), ("B", .number)], none⟩
        [⟨"a", ⟨"A", .title⟩⟩]).2 = .error (.schemaErrorDiff [] ["B"] []) ∧
    (DatabaseState.setSchema ⟨"db", [("A", .title), ("B", .number)], none⟩
        [⟨"a", ⟨"A", .title⟩⟩]).1 = ⟨"db", [("A", .title), ("B", .number)], none⟩ ∧
    (∃ pre post : String, schemaSetterMsg [] ["B"] [] =
      pre ++ ("Columns removed: [" ++ "B" ++ "]\n") ++ post) ∧
    (DatabaseState.setSchema ⟨"db", [("A", .title), ("B", .number)], none⟩
        [⟨"x", ⟨"A", .title⟩⟩, ⟨"y", ⟨"B", .number⟩⟩]).2 = .ok () ∧
    (DatabaseState.setSchema ⟨"db", [("A", .title), ("B", .number)], none⟩
        [⟨"x", ⟨"A", .title⟩⟩, ⟨"y", ⟨"B", .number⟩⟩]).1.cachedSchema =
      some [⟨"x", ⟨"A", .title⟩⟩, ⟨"y", ⟨"B", .number⟩⟩] :=
  schema_setter_diff_and_rebind "db" "A" "B" "a" "x" "y" .title .number (by decide)

/-- The property-building loop of `create_page` raises `ReadOnlyColumnError`
whenever every keyword resolves to a column and some keyword's column is
read-only. -/
theorem buildProps_readonly (S : List (String × Column)) :
    ∀ kwargs : List (String × KwargVal),
    (∀ k ∈ kwargs.map Prod.fst, (lookupCol S k).isSome = true) →
    (∃ kv ∈ kwargs, ∃ col, lookupCol S kv.1 = some col ∧ col.type.readonly = true) →
    ∃ c, buildProps S kwargs = .error (.readOnlyColumnError c) := by
  intro kwargs
  induction kwargs with
  | nil =>
    intro _ hex
    obtain ⟨kv, hkv, _⟩ := hex
    exact absurd hkv (List.not_mem_nil kv)
  | cons hd tl ih =>
    intro hall hex
    obtain ⟨k, v⟩ := hd
    obtain ⟨col0, hcol0⟩ : ∃ c, lookupCol S k = some c := by
      have hs := hall k (by simp)
      cases hl : lookupCol S k with
      | none => rw [hl] at hs; simp at hs
      | some c => exact ⟨c, rfl⟩
    by_cases hro : col0.type.readonly = true
    · exact ⟨col0.name, by simp [buildProps, hcol0, hro]⟩
    · have hex' : ∃ kv ∈ tl, ∃ col, lookupCol S kv.1 = some col ∧ col.type.readonly = true := by
        obtain ⟨kv, hkv, col, hc, hcro⟩ := hex
        rcases List.mem_cons.mp hkv with heq | hmem
        · subst heq
          rw [hcol0] at hc
          cases hc
          exact absurd hcro hro
        · exact ⟨kv, hmem, col, hc, hcro⟩
      have hall' : ∀ k2 ∈ tl.map Prod.fst, (lookupCol S k2).isSome = true := by
        intro k2 hk2
        exact hall k2 (by simp [hk2])
      obtain ⟨c, hc⟩ := ih hall' hex'
      refine ⟨c, ?_⟩
      simp [buildProps, hcol0, hro, hc, Except.map]

/-- Claim C1: `create_page` with a keyword that is not a schema attribute
raises `SchemaError`, and `create_page` whose keywords all resolve but
where some keyword maps to a read-only column raises `ReadOnlyColumnError`;
in this embedding an `.error` result is, by construction of `createPage`
and `pagesCreate`, raised before the single transport call, so no network
request is issued and no page is created. -/
theorem create_page_rejects_unknown_and_readonly (db : DatabaseState)
    (kwargs : List (String × KwargVal)) :
    ((∃ k ∈ kwargs.map Prod.fst,
        lookupCol (db.schema.map (fun sc => (sc.attrName, sc.col))) k = none) →
      ∃ msg, db.createPage kwargs = .error (.schemaErrorMsg msg)) ∧
    (((∀ k ∈ kwargs.map Prod.fst,
        (lookupCol (db.schema.map (fun sc => (sc.attrName, sc.col))) k).isSome = true) ∧
      (∃ kv ∈ kwargs, ∃ col,
        lookupCol (db.schema.map (fun sc => (sc.attrName, sc.col))) kv.1 = some col ∧
        col.type.readonly = true)) →
      ∃ c, db.createPage kwargs = .error (.readOnlyColumnError c)) := by
  constructor
  · intro hex
    obtain ⟨k, hk, hnone⟩ := hex
    have hmem : k ∈ (kwargs.map Prod.fst).filter
        (fun k2 => (lookupCol (db.schema.map (fun sc => (sc.attrName, sc.col))) k2).isNone) :=
      List.mem_filter.mpr ⟨hk, by simp [hnone]⟩
    have hne2 : ((kwargs.map Prod.fst).filter
        (fun k2 => (lookupCol (db.schema.map (fun sc => (sc.attrName, sc.col))) k2).isNone)).isEmpty = false := by
      cases hcase : (kwargs.map Prod.fst).filter
          (fun k2 => (lookupCol (db.schema.map (fun sc => (sc.attrName, sc.col))) k2).isNone) with
      | nil => rw [hcase] at hmem; exact absurd hmem (List.not_mem_nil k)
      | cons a l => rfl
    refine ⟨"kwargs " ++ String.intercalate ", "
      ((kwargs.map Prod.fst).filter
        (fun k2 => (lookupCol (db.schema.map (fun sc => (sc.attrName, sc.col))) k2).isNone)) ++
      " not defined in schema", ?_⟩
    simp only [DatabaseState.createPage, hne2, Bool.false_eq_true, if_false]
  · intro hyp
    obtain ⟨hall, hex⟩ := hyp
    have hempty : ((kwargs.map Prod.fst).filter
        (fun k2 => (lookupCol (db.schema.map (fun sc => (sc.attrName, sc.col))) k2).isNone)).isEmpty = true := by
      rw [List.isEmpty_iff]
      rw [List.filter_eq_nil_iff]
      intro a ha
      have := hall a ha
      simp [Option.isNone, Option.isSome] at this ⊢
      cases hl : lookupCol (db.schema.map (fun sc => (sc.attrName, sc.col))) a with
      | none => rw [hl] at this; simp at this
      | some c => simp
    obtain ⟨c, hc⟩ := buildProps_readonly (db.schema.map (fun sc => (sc.attrName, sc.col))) kwargs hall hex
    refine ⟨c, ?_⟩
    simp only [DatabaseState.createPage, hempty, if_true, hc]
    rfl

/-- Witness for the previous theorem: part one at an unknown keyword
"bogus", part two at keyword "calc" mapping to a read-only formula
column. -/
theorem create_page_rejects_unknown_and_readonly_witness :
    (∃ msg, DatabaseState.createPage ⟨"db1", [("Name", .title)], none⟩
        [("bogus", .nativeVal .noneV)] = .error (.schemaErrorMsg msg)) ∧
    (∃ c, DatabaseState.createPage ⟨"db1", [("Name", .title), ("Calc", .formula)], none⟩
        [("calc", .nativeVal .noneV)] = .error (.readOnlyColumnError c)) :=
  ⟨(create_page_rejects_unknown_and_readonly ⟨"db1", [("Name", .title)], none⟩
      [("bogus", .nativeVal .noneV)]).1
    ⟨"bogus", List.mem_cons_self "bogus" [], rfl⟩,
   (create_page_rejects_unknown_and_readonly ⟨"db1", [("Name", .title), ("Calc", .formula)], none⟩
      [("calc", .nativeVal .noneV)]).2
    ⟨by decide, ⟨("calc", .nativeVal .noneV), List.mem_cons_self _ [], ⟨"Calc", .formula⟩, rfl, rfl⟩⟩⟩


/-- Python's `list.remove` on a present element succeeds. -/
theorem pyListRemove_mem {α : Type} [DecidableEq α] (l : List α) (x : α) (h : x ∈ l) :
    ∃ l2, pyListRemove l x = .ok l2 := by
  induction l with
  | nil => exact absurd h (List.not_mem_nil x)
  | cons a rest ih =>
    by_cases ha : a = x
    · exact ⟨rest, by simp [pyListRemove, ha]⟩
    · have hrest : x ∈ rest := by
        rcases List.mem_cons.mp h with heq | hm
        · exact absurd heq.symm ha
        · exact hm
      obtain ⟨l2, hl2⟩ := ih hrest
      exact ⟨a :: l2, by simp [pyListRemove, ha, hl2, Except.map]⟩

/-- The `MultiSelect` half of the collection-mutation contract holds:
`+=` of an absent name adds it and membership becomes true, `-=` of a
present name removes it and membership becomes false, `+=` of a present
name raises, `-=` of an absent name raises. -/
theorem multiselect_pm_membership (x : MultiSelect) (v : String) :
    (x.containsName v = false → ∃ x2, x.iadd v = .ok x2 ∧ x2.containsName v = true) ∧
    (x.containsName v = true → (x.removeOne v).containsName v = false ∧ x.isub v = .ok (x.removeOne v)) ∧
    (x.containsName v = true → isErr (x.iadd v) = true) ∧
    (x.containsName v = false → isErr (x.isub v) = true) := by
  refine ⟨?_, ?_, ?_, ?_⟩
  · intro h
    refine ⟨⟨x.multiSelect ++ [{ name := v }]⟩, ?_, ?_⟩
    · simp [MultiSelect.iadd, MultiSelect.appendOne, h]
    · simp [MultiSelect.containsName]
  · intro h
    constructor
    · simp [MultiSelect.removeOne, MultiSelect.containsName, List.any_eq_true]
    · simp [MultiSelect.isub, h]
  · intro h; simp [MultiSelect.iadd, h, isErr]
  · intro h; simp [MultiSelect.isub, h, isErr]

/-- The `Files` half of the collection-mutation contract holds for a
`FileObject` element: `+=` of an absent object appends it and membership
becomes true, `-=` of a present object removes one occurrence, `+=` of a
present object raises, `-=` of an absent object raises. -/
theorem files_pm_membership (x : Files) (v : FileObject) :
    (x.containsOp (.fileOp v) = false →
      x.iadd v = .ok (x.appendObj v) ∧ (x.appendObj v).containsOp (.fileOp v) = true) ∧
    (x.containsOp (.fileOp v) = true → ∃ x2, x.isub v = .ok x2) ∧
    (x.containsOp (.fileOp v) = true → isErr (x.iadd v) = true) ∧
    (x.containsOp (.fileOp v) = false → isErr (x.isub v) = true) := by
  refine ⟨?_, ?_, ?_, ?_⟩
  · intro h
    refine ⟨by simp [Files.iadd, h], by simp [Files.appendObj, Files.containsOp]⟩
  · intro h
    have hmem : v ∈ x.files := by
      simpa [Files.containsOp, List.any_eq_true] using h
    obtain ⟨l2, hl2⟩ := pyListRemove_mem x.files v hmem
    exact ⟨⟨l2⟩, by simp [Files.isub, h, Files.removeObj, hl2, Except.map]⟩
  · intro h; simp [Files.iadd, h, isErr]
  · intro h; simp [Files.isub, h, isErr]

/-- The `+=` side of `Relation` behaves as the contract asks: an absent
reference is appended and membership becomes true; a present one raises a
duplicate error.  (The `-=` side is the one the code inverts.) -/
theorem relation_iadd_membership (x : Relation) (r : ObjectReference) :
    (x.containsRef r = false →
      x.iadd r = .ok { x with relation := x.relation ++ [r] } ∧
      (Relation.mk (x.relation ++ [r]) x.hasMore).containsRef r = true) ∧
    (x.containsRef r = true → isErr (x.iadd r) = true) := by
  constructor
  · intro h
    have hnm : r ∉ x.relation := by
      simp [Relation.containsRef] at h
      exact h
    refine ⟨by simp [Relation.iadd, hnm], by simp [Relation.containsRef]⟩
  · intro h
    have hm : r ∈ x.relation := by
      simp [Relation.containsRef] at h
      exact h
    simp [Relation.iadd, hm, isErr]

end UltimateNotion
